import Mathlib

/-!
# Verification of the `solaredge` API client (src/solaredge/solaredge.py)

Shallow embedding of the library's pure marshaling logic:

* `urljoinL` — the module-level `urljoin(*parts)` function, modelled over
  `List Char` (Python `str` values are sequences of characters; `str(part)`
  conversion is implicit in taking segments as character lists).
* `fmt_date` — the static method `Solaredge._fmt_date`, with the two
  `strptime`/`strftime` format strings the client uses modelled concretely,
  and the external collaborators (`dateutil.parser.parse`,
  `datetime.astimezone`) taken as parameters, so every theorem holds for
  all behaviours of those collaborators.
* `Solaredge.get_list` … `Solaredge.get_inventory` — the HTTP operations,
  parameterised over a transport function standing for `requests.get`;
  `raise_for_status` is modelled faithfully (it raises exactly for status
  codes 400–599).
* `cachedCall` — the observable behaviour of
  `functools.lru_cache(maxsize=128, typed=False)` as applied to
  `get_list`, `get_details` and `get_data_period`.
-/

set_option autoImplicit false

namespace solaredge

/-! ## URL builder: `urljoin` -/

/-- `p.endswith('//')` on a character list. -/
def endsWith2 (l : List Char) : Bool :=
  match l.reverse with
  | c :: d :: _ => c == '/' && d == '/'
  | _ => false

/-- Python `p.strip('/')`: remove all leading and trailing `'/'` characters. -/
def stripSlashes (l : List Char) : List Char :=
  ((l.dropWhile (fun c => c = '/')).reverse.dropWhile (fun c => c = '/')).reverse

/-- The per-segment processing inside `urljoin`: if the segment ends with a
double slash, drop its final character (`p[0:-1]`), otherwise strip leading
and trailing slashes (`p.strip('/')`). -/
def processPart (l : List Char) : List Char :=
  if endsWith2 l then l.dropLast else stripSlashes l

/-- Python `'/'.join(part_list)`. -/
def joinParts : List (List Char) → List Char
  | [] => []
  | [p] => p
  | p :: q :: rest => p ++ '/' :: joinParts (q :: rest)

/-- `urljoin(*parts)`: process each segment, then join with single slashes. -/
def urljoinL (parts : List (List Char)) : List Char :=
  joinParts (parts.map processPart)

/-- `urljoin` on Lean strings, used by the API operations. -/
def urljoinS (parts : List String) : String :=
  String.mk (urljoinL (parts.map String.toList))

/-- Helper for Python `s.split(sep)`: returns the first field and the
remaining fields of the split. -/
def splitCAux (sep : Char) : List Char → List Char × List (List Char)
  | [] => ([], [])
  | c :: cs =>
      let r := splitCAux sep cs
      if c = sep then ([], r.1 :: r.2) else (c :: r.1, r.2)

/-- Python `s.split(sep)` for a one-character separator: in particular
`splitC sep [] = [[]]`, matching `''.split(sep) == ['']`. -/
def splitC (sep : Char) (l : List Char) : List (List Char) :=
  (splitCAux sep l).1 :: (splitCAux sep l).2

/-- Number of leading `'/'` characters. -/
def leadCount (l : List Char) : Nat :=
  (l.takeWhile (fun c => c = '/')).length

/-- Number of trailing `'/'` characters. -/
def trailCount (l : List Char) : Nat :=
  leadCount l.reverse

/-! ## Date/time model

`datetime.date` and `datetime.datetime` values are valid by construction
(their constructors validate ranges: `MINYEAR = 1 ≤ year ≤ 9999 = MAXYEAR`,
`1 ≤ month ≤ 12`, `1 ≤ day ≤ days-in-month`, `hour ≤ 23`, `minute ≤ 59`,
`second ≤ 59`), so the embedded structures carry those bounds as fields. -/

def isLeap (y : Nat) : Bool :=
  y % 4 == 0 && (y % 100 != 0 || y % 400 == 0)

def daysInMonth (y m : Nat) : Nat :=
  if m = 2 then (if isLeap y then 29 else 28)
  else if m = 4 ∨ m = 6 ∨ m = 9 ∨ m = 11 then 30 else 31

/-- A `datetime.date` value. -/
structure Date where
  year : Nat
  month : Nat
  day : Nat
  year_pos : 1 ≤ year
  year_le : year ≤ 9999
  month_pos : 1 ≤ month
  month_le : month ≤ 12
  day_pos : 1 ≤ day
  day_le : day ≤ daysInMonth year month

/-- A `datetime.datetime` value; `Tz` is the type of `tzinfo` objects,
kept abstract (the client passes `pytz` zones through unchanged). -/
structure DateTime (Tz : Type) where
  date : Date
  hour : Nat
  minute : Nat
  second : Nat
  hour_le : hour ≤ 23
  minute_le : minute ≤ 59
  second_le : second ≤ 59
  tzinfo : Option Tz

/-- The two `strftime`/`strptime` format strings the client uses:
`%Y-%m-%d` and `%Y-%m-%d %H:%M:%S` (section 6 of the spec). -/
inductive Fmt
  | ymd
  | ymdHms
deriving DecidableEq

/-- The decimal digit character for `d % 10`. -/
def digitChar (d : Nat) : Char := Char.ofNat (48 + d % 10)

/-- Two-digit zero-padded rendering (`%m`, `%d`, `%H`, `%M`, `%S`). -/
def pad2 (n : Nat) : List Char := [digitChar (n / 10), digitChar n]

/-- The four digit characters of `n % 10000` (the decimal digits of an
`n` with `1000 ≤ n ≤ 9999`). -/
def pad4 (n : Nat) : List Char :=
  [digitChar (n / 1000), digitChar (n / 100), digitChar (n / 10), digitChar n]

/-- `strftime` `%Y` as CPython renders it on glibc: the year as an
*unpadded* decimal number (`date(5, 1, 2).strftime('%Y-%m-%d')` is
`'5-01-02'`, not `'0005-01-02'`); for `1 ≤ n ≤ 9999` these are the plain
decimal digits of `n`. -/
def yearDigits (n : Nat) : List Char :=
  if n < 10 then [digitChar n]
  else if n < 100 then [digitChar (n / 10), digitChar n]
  else if n < 1000 then [digitChar (n / 100), digitChar (n / 10), digitChar n]
  else pad4 n

/-- Numeric value of a digit string. -/
def natOf (cs : List Char) : Nat :=
  cs.foldl (fun a c => a * 10 + (c.toNat - 48)) 0

def allDigits (cs : List Char) : Bool := cs.all (fun c => c.isDigit)

/-- `strptime` acceptance of a `%Y` field: exactly four digits (CPython's
`_strptime` regex), and `datetime` then requires `year ≥ MINYEAR = 1`. -/
def okY (cs : List Char) : Bool :=
  cs.length == 4 && allDigits cs && natOf cs != 0

/-- `strptime` acceptance of a one-or-two-digit numeric field with value
bounds (CPython accepts unpadded single digits). -/
def ok2 (lo hi : Nat) (cs : List Char) : Bool :=
  (cs.length == 1 || cs.length == 2) && allDigits cs &&
    decide (lo ≤ natOf cs) && decide (natOf cs ≤ hi)

/-- Acceptance of `datetime.strptime(s, fmt)` for the two client formats:
the fields are matched by CPython's `_strptime` regexes and the resulting
numbers must form a constructible `datetime` (day within the month).
Modelling note: the literal `-`, ` ` and `:` separators are matched
exactly (CPython would accept runs of whitespace for the space). -/
def strptimeOk (fmt : Fmt) (cs : List Char) : Bool :=
  match fmt with
  | .ymd =>
      match splitC '-' cs with
      | [y, m, d] =>
          okY y && ok2 1 12 m && ok2 1 31 d &&
            decide (natOf d ≤ daysInMonth (natOf y) (natOf m))
      | _ => false
  | .ymdHms =>
      match splitC ' ' cs with
      | [dp, tp] =>
          (match splitC '-' dp, splitC ':' tp with
           | [y, m, d], [h, mi, s] =>
               okY y && ok2 1 12 m && ok2 1 31 d &&
                 decide (natOf d ≤ daysInMonth (natOf y) (natOf m)) &&
                 ok2 0 23 h && ok2 0 59 mi && ok2 0 59 s
           | _, _ => false)
      | _ => false

def renderYmd (y m d : Nat) : List Char :=
  yearDigits y ++ ('-' :: (pad2 m ++ ('-' :: pad2 d)))

def renderHms (h mi s : Nat) : List Char :=
  pad2 h ++ (':' :: (pad2 mi ++ (':' :: pad2 s)))

/-- `date.strftime(fmt)`: a `datetime.date` renders time fields as zero. -/
def strftimeDate (d : Date) : Fmt → List Char
  | .ymd => renderYmd d.year d.month d.day
  | .ymdHms => renderYmd d.year d.month d.day ++ ' ' :: renderHms 0 0 0

/-- `datetime.strftime(fmt)` for the two client formats. -/
def strftimeDT {Tz : Type} (t : DateTime Tz) : Fmt → List Char
  | .ymd => renderYmd t.date.year t.date.month t.date.day
  | .ymdHms =>
      renderYmd t.date.year t.date.month t.date.day ++
        ' ' :: renderHms t.hour t.minute t.second

/-! ## `Solaredge._fmt_date` -/

/-- The exceptions `_fmt_date` can surface (`ValueError`, of which
`dateutil`'s parse failure is a subclass). -/
inductive FmtErr
  | valueError (msg : String)
deriving DecidableEq

/-- The argument of `_fmt_date`: text, a `date`, or a `datetime`. -/
inductive DateInput (Tz : Type)
  | str (s : List Char)
  | date (d : Date)
  | datetime (t : DateTime Tz)

/-- The structured year (if any) of a `_fmt_date` argument is at least
`k`; text inputs carry no structured year. -/
def inputYearGE {Tz : Type} (k : Nat) : DateInput Tz → Prop
  | .str _ => True
  | .date d => k ≤ d.year
  | .datetime t => k ≤ t.date.year

/-- The tail of `_fmt_date` applied to a `datetime` value: the
`hasattr(date_obj, 'tzinfo')` check succeeds, so if the value is
zone-aware a target zone is required (`astimezone` conversion), and then
the value is rendered with `strftime`.  `astz` stands for
`datetime.astimezone`, kept abstract. -/
def finishDatetime {Tz : Type} (astz : DateTime Tz → Tz → DateTime Tz)
    (fmt : Fmt) (tz : Option Tz) (t : DateTime Tz) : Except FmtErr (List Char) :=
  match t.tzinfo with
  | some _ =>
      match tz with
      | none => Except.error (FmtErr.valueError "Please supply a target timezone")
      | some z => Except.ok (strftimeDT (astz t z) fmt)
  | none => Except.ok (strftimeDT t fmt)

/-- `Solaredge._fmt_date(date_obj, fmt, tz)`.  `duParse` stands for
`dateutil.parser.parse` (returns a `datetime` or raises), `astz` for
`datetime.astimezone`; both external collaborators are parameters so the
theorems below hold for every behaviour of those libraries. -/
def fmt_date {Tz : Type} (duParse : List Char → Option (DateTime Tz))
    (astz : DateTime Tz → Tz → DateTime Tz) (date_obj : DateInput Tz)
    (fmt : Fmt) (tz : Option Tz) : Except FmtErr (List Char) :=
  match date_obj with
  | .str s =>
      if strptimeOk fmt s then Except.ok s
      else
        match duParse s with
        | none => Except.error (FmtErr.valueError "Unknown string format")
        | some t => finishDatetime astz fmt tz t
  | .date d => Except.ok (strftimeDate d fmt)
  | .datetime t => finishDatetime astz fmt tz t

/-! ## API client operations -/

/-- A query-parameter value (`str` or `int` in the source). -/
inductive PVal
  | s (v : String)
  | i (v : Int)
deriving DecidableEq

/-- Ordered query-parameter mapping (Python dicts preserve insertion
order). -/
def lookupParam (ps : List (String × PVal)) (k : String) : Option PVal :=
  (ps.find? (fun p => p.1 == k)).map (fun p => p.2)

/-- An HTTP response as the client observes it: a status code and the
decoded JSON body (abstract type `α`). -/
structure Response (α : Type) where
  status : Nat
  body : α

/-- A stubbed `requests.get`: URL and query parameters to response. -/
def Transport (α : Type) : Type := String → List (String × PVal) → Response α

def BASEURL : String := "https://monitoringapi.solaredge.com"

/-- `r.raise_for_status()` followed by `return r.json()`: `requests`
raises `HTTPError` exactly for status codes 400–599 (client and server
errors); any other status falls through to the JSON body. -/
def raiseForStatusJson {α : Type} (r : Response α) : Except Nat α :=
  if 400 ≤ r.status ∧ r.status ≤ 599 then Except.error r.status
  else Except.ok r.body

/-- An outgoing request: the built URL and the assembled parameters. -/
structure Request where
  url : String
  params : List (String × PVal)

def runRequest {α : Type} (transport : Transport α) (rq : Request) :
    Except Nat α :=
  raiseForStatusJson (transport rq.url rq.params)

/-- Python truthiness of an optional string argument (`None` and the
empty string are falsy). -/
def truthyOpt : Option String → Bool
  | none => false
  | some s => s != ""

/-- Python `sep.join(parts)`. -/
def pyStrJoin (sep : List Char) : List (List Char) → List Char
  | [] => []
  | [p] => p
  | p :: q :: rest => p ++ sep ++ pyStrJoin sep (q :: rest)

/-- The `Solaredge` client class: holds the site token. -/
structure Solaredge where
  token : String

def Solaredge.get_list_request (self : Solaredge) (size start_index : Int)
    (search_text sort_property sort_order status : String) : Request :=
  let url := urljoinS [BASEURL, "sites", "list"]
  let params := [("api_key", PVal.s self.token), ("size", PVal.i size),
    ("startIndex", PVal.i start_index), ("sortOrder", PVal.s sort_order),
    ("status", PVal.s status)]
  let params := if search_text != "" then
    params ++ [("searchText", PVal.s search_text)] else params
  let params := if sort_property != "" then
    params ++ [("sortProperty", PVal.s sort_property)] else params
  ⟨url, params⟩

def Solaredge.get_list {α : Type} (self : Solaredge) (transport : Transport α)
    (size start_index : Int)
    (search_text sort_property sort_order status : String) : Except Nat α :=
  runRequest transport
    (self.get_list_request size start_index search_text sort_property
      sort_order status)

def Solaredge.get_details_request (self : Solaredge) (site_id : Int) : Request :=
  ⟨urljoinS [BASEURL, "site", toString site_id, "details"],
    [("api_key", PVal.s self.token)]⟩

def Solaredge.get_details {α : Type} (self : Solaredge)
    (transport : Transport α) (site_id : Int) : Except Nat α :=
  runRequest transport (self.get_details_request site_id)

def Solaredge.get_data_period_request (self : Solaredge) (site_id : Int) :
    Request :=
  ⟨urljoinS [BASEURL, "site", toString site_id, "dataPeriod"],
    [("api_key", PVal.s self.token)]⟩

def Solaredge.get_data_period {α : Type} (self : Solaredge)
    (transport : Transport α) (site_id : Int) : Except Nat α :=
  runRequest transport (self.get_data_period_request site_id)

def Solaredge.get_energy_request (self : Solaredge) (site_id : Int)
    (start_date end_date time_unit : String) : Request :=
  ⟨urljoinS [BASEURL, "site", toString site_id, "energy"],
    [("api_key", PVal.s self.token), ("startDate", PVal.s start_date),
     ("endDate", PVal.s end_date), ("timeUnit", PVal.s time_unit)]⟩

def Solaredge.get_energy {α : Type} (self : Solaredge)
    (transport : Transport α) (site_id : Int)
    (start_date end_date time_unit : String) : Except Nat α :=
  runRequest transport
    (self.get_energy_request site_id start_date end_date time_unit)

def Solaredge.get_time_frame_energy_request (self : Solaredge) (site_id : Int)
    (start_date end_date time_unit : String) : Request :=
  ⟨urljoinS [BASEURL, "site", toString site_id, "timeFrameEnergy"],
    [("api_key", PVal.s self.token), ("startDate", PVal.s start_date),
     ("endDate", PVal.s end_date), ("timeUnit", PVal.s time_unit)]⟩

def Solaredge.get_time_frame_energy {α : Type} (self : Solaredge)
    (transport : Transport α) (site_id : Int)
    (start_date end_date time_unit : String) : Except Nat α :=
  runRequest transport
    (self.get_time_frame_energy_request site_id start_date end_date time_unit)

def Solaredge.get_power_request (self : Solaredge) (site_id : Int)
    (start_time end_time : String) : Request :=
  ⟨urljoinS [BASEURL, "site", toString site_id, "power"],
    [("api_key", PVal.s self.token), ("startTime", PVal.s start_time),
     ("endTime", PVal.s end_time)]⟩

def Solaredge.get_power {α : Type} (self : Solaredge)
    (transport : Transport α) (site_id : Int)
    (start_time end_time : String) : Except Nat α :=
  runRequest transport (self.get_power_request site_id start_time end_time)

def Solaredge.get_overview_request (self : Solaredge) (site_id : Int) :
    Request :=
  ⟨urljoinS [BASEURL, "site", toString site_id, "overview"],
    [("api_key", PVal.s self.token)]⟩

def Solaredge.get_overview {α : Type} (self : Solaredge)
    (transport : Transport α) (site_id : Int) : Except Nat α :=
  runRequest transport (self.get_overview_request site_id)

def Solaredge.get_power_details_request (self : Solaredge) (site_id : Int)
    (start_time end_time : String) (meters : Option String) : Request :=
  let url := urljoinS [BASEURL, "site", toString site_id, "powerDetails"]
  let params := [("api_key", PVal.s self.token),
    ("startTime", PVal.s start_time), ("endTime", PVal.s end_time)]
  let params := if truthyOpt meters then
    params ++ [("meters", PVal.s (meters.getD ""))] else params
  ⟨url, params⟩

def Solaredge.get_power_details {α : Type} (self : Solaredge)
    (transport : Transport α) (site_id : Int) (start_time end_time : String)
    (meters : Option String) : Except Nat α :=
  runRequest transport
    (self.get_power_details_request site_id start_time end_time meters)

def Solaredge.get_energy_details_request (self : Solaredge) (site_id : Int)
    (start_time end_time : String) (meters : Option String)
    (time_unit : String) : Request :=
  let url := urljoinS [BASEURL, "site", toString site_id, "energyDetails"]
  let params := [("api_key", PVal.s self.token),
    ("startTime", PVal.s start_time), ("endTime", PVal.s end_time),
    ("timeUnit", PVal.s time_unit)]
  let params := if truthyOpt meters then
    params ++ [("meters", PVal.s (meters.getD ""))] else params
  ⟨url, params⟩

def Solaredge.get_energy_details {α : Type} (self : Solaredge)
    (transport : Transport α) (site_id : Int) (start_time end_time : String)
    (meters : Option String) (time_unit : String) : Except Nat α :=
  runRequest transport
    (self.get_energy_details_request site_id start_time end_time meters
      time_unit)

def Solaredge.get_current_power_flow_request (self : Solaredge)
    (site_id : Int) : Request :=
  ⟨urljoinS [BASEURL, "site", toString site_id, "currentPowerFlow"],
    [("api_key", PVal.s self.token)]⟩

def Solaredge.get_current_power_flow {α : Type} (self : Solaredge)
    (transport : Transport α) (site_id : Int) : Except Nat α :=
  runRequest transport (self.get_current_power_flow_request site_id)

/-- The `serials` branch of `get_storage_data` executes
`serials.join(',')`: the *serials string* is used as the join separator
and the one-character string `','` as the iterable of (one-character)
strings being joined. -/
def Solaredge.get_storage_data_request (self : Solaredge) (site_id : Int)
    (start_time end_time : String) (serials : Option String) : Request :=
  let url := urljoinS [BASEURL, "site", toString site_id, "storageData"]
  let params := [("api_key", PVal.s self.token),
    ("startTime", PVal.s start_time), ("endTime", PVal.s end_time)]
  let params := if truthyOpt serials then
    params ++ [("serials",
      PVal.s (String.mk (pyStrJoin (serials.getD "").toList [[',']])))]
    else params
  ⟨url, params⟩

def Solaredge.get_storage_data {α : Type} (self : Solaredge)
    (transport : Transport α) (site_id : Int) (start_time end_time : String)
    (serials : Option String) : Except Nat α :=
  runRequest transport
    (self.get_storage_data_request site_id start_time end_time serials)

def Solaredge.get_inventory_request (self : Solaredge) (site_id : Int) :
    Request :=
  ⟨urljoinS [BASEURL, "site", toString site_id, "inventory"],
    [("api_key", PVal.s self.token)]⟩

def Solaredge.get_inventory {α : Type} (self : Solaredge)
    (transport : Transport α) (site_id : Int) : Except Nat α :=
  runRequest transport (self.get_inventory_request site_id)

/-! ## `functools.lru_cache(maxsize=128, typed=False)` -/

/-- The cache of one wrapped method: entries most-recent-first. -/
structure LruCache (κ α : Type) where
  entries : List (κ × α)

def emptyCache (κ α : Type) : LruCache κ α := ⟨[]⟩

/-- One call through `lru_cache`: on a hit the entry moves to the front
(most recently used) and the underlying function is *not* called; on a
miss the underlying function runs (the `Bool` result records this), its
exception propagates without caching, and a successful result is stored,
evicting the least-recently-used entry when the capacity would be
exceeded. -/
def cachedCall {κ α ε : Type} [BEq κ] (cap : Nat) (f : κ → Except ε α)
    (c : LruCache κ α) (k : κ) : Except ε α × LruCache κ α × Bool :=
  match c.entries.find? (fun p => p.1 == k) with
  | some pv =>
      (Except.ok pv.2,
        ⟨(k, pv.2) :: c.entries.eraseP (fun p => p.1 == k)⟩, false)
  | none =>
      match f k with
      | Except.error e => (Except.error e, c, true)
      | Except.ok v =>
          let es := (k, v) :: c.entries
          (Except.ok v, ⟨if cap < es.length then es.dropLast else es⟩, true)

/-- The full argument tuple of `get_list` (the bound `self` included:
`lru_cache` keys on it). -/
structure ListKey where
  token : String
  size : Int
  start_index : Int
  search_text : String
  sort_property : String
  sort_order : String
  status : String
deriving DecidableEq

/-- The argument tuple of `get_details` / `get_data_period`. -/
structure SiteKey where
  token : String
  site_id : Int
deriving DecidableEq

/-- `get_list` as wrapped by `@functools.lru_cache(maxsize=128)`. -/
def get_list_cached {α : Type} (transport : Transport α)
    (c : LruCache ListKey α) (k : ListKey) :
    Except Nat α × LruCache ListKey α × Bool :=
  cachedCall 128
    (fun kk => (Solaredge.mk kk.token).get_list transport kk.size
      kk.start_index kk.search_text kk.sort_property kk.sort_order kk.status)
    c k

/-- `get_details` as wrapped by `@functools.lru_cache(maxsize=128)`. -/
def get_details_cached {α : Type} (transport : Transport α)
    (c : LruCache SiteKey α) (k : SiteKey) :
    Except Nat α × LruCache SiteKey α × Bool :=
  cachedCall 128
    (fun kk => (Solaredge.mk kk.token).get_details transport kk.site_id) c k

/-- `get_data_period` as wrapped by `@functools.lru_cache(maxsize=128)`. -/
def get_data_period_cached {α : Type} (transport : Transport α)
    (c : LruCache SiteKey α) (k : SiteKey) :
    Except Nat α × LruCache SiteKey α × Bool :=
  cachedCall 128
    (fun kk => (Solaredge.mk kk.token).get_data_period transport kk.site_id)
    c k

/-! ### Concrete sample values (used by witnesses) -/

/-- `get_list`'s default argument tuple for a client with token `"t"`. -/
def lk0 : ListKey := ⟨"t", 100, 0, "", "", "ASC", "Active,Pending"⟩

/-- A second, different `get_list` argument tuple (`size` differs). -/
def lk1 : ListKey := ⟨"t", 50, 0, "", "", "ASC", "Active,Pending"⟩

def sk0 : SiteKey := ⟨"t", 1⟩

def sk1 : SiteKey := ⟨"t", 2⟩

/-- A stubbed transport that always answers with the given status and
body. -/
def stub (α : Type) (status : Nat) (body : α) : Transport α :=
  fun _ _ => ⟨status, body⟩


def sampleDate : Date :=
  ⟨2021, 1, 2, by decide, by decide, by decide, by decide, by decide, by decide⟩

/-- `datetime.date(5, 1, 2)`: a valid date whose year has fewer than four
digits. -/
def date5 : Date :=
  ⟨5, 1, 2, by decide, by decide, by decide, by decide, by decide, by decide⟩

/-- A zone-naive `datetime` (`tzinfo is None`). -/
def naiveDT : DateTime Unit :=
  ⟨sampleDate, 3, 4, 5, by decide, by decide, by decide, none⟩

/-- A zone-aware `datetime` (`tzinfo is not None`). -/
def awareDT : DateTime Unit :=
  ⟨sampleDate, 3, 4, 5, by decide, by decide, by decide, some ()⟩

/-- A stand-in for `dateutil.parser.parse` that always fails. -/
def noParse : List Char → Option (DateTime Unit) := fun _ => none

/-- A stand-in for `datetime.astimezone` that returns its input. -/
def idZone : DateTime Unit → Unit → DateTime Unit := fun t _ => t

/-! ### Split/join lemmas -/

theorem splitCAux_no_sep {sep : Char} {a : List Char} (h : sep ∉ a) :
    splitCAux sep a = (a, []) := by
  induction a with
  | nil => rfl
  | cons c cs ih =>
      have hc : c ≠ sep := fun hcs => h (hcs ▸ List.mem_cons_self c cs)
      have hcs : sep ∉ cs := fun hm => h (List.mem_cons_of_mem c hm)
      simp [splitCAux, ih hcs, hc]

theorem splitCAux_append {sep : Char} {a r : List Char} (h : sep ∉ a) :
    splitCAux sep (a ++ sep :: r) = (a, (splitCAux sep r).1 :: (splitCAux sep r).2) := by
  induction a with
  | nil => simp [splitCAux]
  | cons c cs ih =>
      have hc : c ≠ sep := fun hcs => h (hcs ▸ List.mem_cons_self c cs)
      have hcs : sep ∉ cs := fun hm => h (List.mem_cons_of_mem c hm)
      simp [splitCAux, ih hcs, hc]

theorem splitC_no_sep {sep : Char} {a : List Char} (h : sep ∉ a) :
    splitC sep a = [a] := by
  simp [splitC, splitCAux_no_sep h]

theorem splitC_append {sep : Char} {a r : List Char} (h : sep ∉ a) :
    splitC sep (a ++ sep :: r) = a :: splitC sep r := by
  simp [splitC, splitCAux_append h]

theorem endsWith2_of_no_slash {p : List Char} (h : '/' ∉ p) : endsWith2 p = false := by
  have h' : '/' ∉ p.reverse := by rw [List.mem_reverse]; exact h
  unfold endsWith2
  cases hr : p.reverse with
  | nil => rfl
  | cons c cs =>
      have hc : c ≠ '/' := by
        intro he
        exact (hr ▸ h') (he ▸ List.mem_cons_self c cs)
      cases cs with
      | nil => rfl
      | cons d ds => simp [hc]

theorem dropWhile_eq_self_of_not_mem {p : List Char} (h : '/' ∉ p) :
    p.dropWhile (fun c => c = '/') = p := by
  cases p with
  | nil => rfl
  | cons c cs =>
      have hc : c ≠ '/' := fun hcs => h (hcs ▸ List.mem_cons_self c cs)
      simp [List.dropWhile, hc]

theorem stripSlashes_of_no_slash {p : List Char} (h : '/' ∉ p) :
    stripSlashes p = p := by
  have h3 : '/' ∉ p.reverse := by rw [List.mem_reverse]; exact h
  unfold stripSlashes
  rw [dropWhile_eq_self_of_not_mem h, dropWhile_eq_self_of_not_mem h3,
    List.reverse_reverse]

theorem processPart_of_no_slash {p : List Char} (h : '/' ∉ p) :
    processPart p = p := by
  unfold processPart
  rw [endsWith2_of_no_slash h]
  simp [stripSlashes_of_no_slash h]

theorem splitC_joinParts {parts : List (List Char)} (hne : parts ≠ [])
    (h : ∀ p ∈ parts, '/' ∉ p) : splitC '/' (joinParts parts) = parts := by
  induction parts with
  | nil => exact absurd rfl hne
  | cons p rest ih =>
      cases rest with
      | nil =>
          exact splitC_no_sep (h p (List.mem_cons_self p []))
      | cons q rest2 =>
          have hp : '/' ∉ p := h p (List.mem_cons_self _ _)
          have hrest : ∀ x ∈ q :: rest2, '/' ∉ x := fun x hx =>
            h x (List.mem_cons_of_mem p hx)
          rw [joinParts, splitC_append hp, ih (by simp) hrest]

theorem takeWhile_dropWhile_nil (p : Char → Bool) (l : List Char) :
    (l.dropWhile p).takeWhile p = [] := by
  induction l with
  | nil => rfl
  | cons c cs ih =>
      by_cases h : p c
      · simpa [List.dropWhile_cons, h] using ih
      · simp [List.dropWhile_cons, List.takeWhile_cons, h]

theorem leadCount_dropWhile (l : List Char) :
    leadCount (l.dropWhile (fun c => c = '/')) = 0 := by
  simp [leadCount, takeWhile_dropWhile_nil]

theorem leadCount_prefix_zero {x y : List Char} (h : leadCount x = 0)
    (hp : y <+: x) : leadCount y = 0 := by
  obtain ⟨t, rfl⟩ := hp
  cases y with
  | nil => rfl
  | cons c cs =>
      by_cases hc : c = '/'
      · simp [leadCount, List.takeWhile_cons, hc] at h
      · simp [leadCount, List.takeWhile_cons, hc]

theorem stripSlashes_eq (l : List Char) :
    stripSlashes l =
      List.rdropWhile (fun c => c = '/') (l.dropWhile (fun c => c = '/')) := rfl

theorem leadCount_stripSlashes (l : List Char) :
    leadCount (stripSlashes l) = 0 := by
  rw [stripSlashes_eq]
  exact leadCount_prefix_zero (leadCount_dropWhile l)
    (List.rdropWhile_prefix _ _)

theorem trailCount_stripSlashes (l : List Char) :
    trailCount (stripSlashes l) = 0 := by
  have hrev : (stripSlashes l).reverse =
      ((l.dropWhile (fun c => c = '/')).reverse.dropWhile (fun c => c = '/')) := by
    simp [stripSlashes]
  unfold trailCount
  rw [hrev]
  simp [leadCount, takeWhile_dropWhile_nil]

theorem endsWith2_exists {p : List Char} (h : endsWith2 p = true) :
    ∃ t, p = t ++ ['/', '/'] := by
  unfold endsWith2 at h
  cases hr : p.reverse with
  | nil => rw [hr] at h; simp at h
  | cons c cs =>
      cases cs with
      | nil => rw [hr] at h; simp at h
      | cons d ds =>
          rw [hr] at h
          simp only [Bool.and_eq_true, beq_iff_eq] at h
          obtain ⟨hc, hd⟩ := h
          subst hc
          subst hd
          refine ⟨ds.reverse, ?_⟩
          have hp := congrArg List.reverse hr
          simpa using hp

theorem endsWith2_concat2 (t : List Char) :
    endsWith2 (t ++ ['/', '/']) = true := by
  unfold endsWith2
  simp

theorem trailCount_append_slash (t : List Char) :
    trailCount (t ++ ['/']) = trailCount t + 1 := by
  simp [trailCount, leadCount, List.reverse_append, List.takeWhile_cons]

theorem trailCount_append_two (t : List Char) :
    trailCount (t ++ ['/', '/']) = trailCount t + 2 := by
  simp [trailCount, leadCount, List.reverse_append, List.takeWhile_cons]

theorem processPart_ends2 {p : List Char} (h : endsWith2 p = true) :
    trailCount (processPart p) + 1 = trailCount p := by
  obtain ⟨t, rfl⟩ := endsWith2_exists h
  unfold processPart
  rw [if_pos h]
  have hdl : (t ++ ['/', '/']).dropLast = t ++ ['/'] := by
    rw [show t ++ ['/', '/'] = (t ++ ['/']) ++ ['/'] by simp,
      List.dropLast_concat]
  rw [hdl, trailCount_append_slash, trailCount_append_two]

theorem endsWith2_iff_trailCount {p : List Char} :
    endsWith2 p = true ↔ 2 ≤ trailCount p := by
  constructor
  · intro h
    obtain ⟨t, rfl⟩ := endsWith2_exists h
    rw [trailCount_append_two]
    omega
  · intro h
    unfold trailCount leadCount at h
    cases hr : p.reverse with
    | nil => rw [hr] at h; simp at h
    | cons c cs =>
        rw [hr] at h
        by_cases hc : c = '/'
        · cases cs with
          | nil => simp [List.takeWhile_cons, hc] at h
          | cons d ds =>
              by_cases hd : d = '/'
              · unfold endsWith2
                rw [hr]
                simp [hc, hd]
              · simp [List.takeWhile_cons, hc, hd] at h
        · simp [List.takeWhile_cons, hc] at h

theorem urljoinL_cons (p : List Char) (ps : List (List Char)) :
    urljoinL (p :: ps) =
      processPart p ++
        (match ps with
         | [] => []
         | _ :: _ => '/' :: urljoinL ps) := by
  cases ps with
  | nil => simp [urljoinL, joinParts]
  | cons q rest => simp [urljoinL, joinParts]

/-- C6 (amended): the URL builder is a pure total function that processes
each segment independently and joins the results with a single slash.  A
segment ends with a double slash exactly when it has at least two trailing
slashes; such a segment has exactly one trailing slash removed (`p[0:-1]`),
so a segment ending in exactly a double slash contributes exactly one
trailing slash (not zero and not two); any other segment has all leading
and trailing slashes stripped. -/
theorem C6_urljoin_contract (p : List Char) (ps : List (List Char)) :
    (endsWith2 p = true ↔ 2 ≤ trailCount p) ∧
    (endsWith2 p = true → trailCount (processPart p) + 1 = trailCount p) ∧
    (trailCount p = 2 → trailCount (processPart p) = 1) ∧
    (endsWith2 p = false →
      leadCount (processPart p) = 0 ∧ trailCount (processPart p) = 0) ∧
    urljoinL (p :: ps) =
      processPart p ++
        (match ps with
         | [] => []
         | _ :: _ => '/' :: urljoinL ps) := by
  refine ⟨endsWith2_iff_trailCount, fun h => processPart_ends2 h, ?_, ?_, urljoinL_cons p ps⟩
  · intro h2
    have he : endsWith2 p = true := endsWith2_iff_trailCount.mpr (by omega)
    have := processPart_ends2 he
    omega
  · intro hf
    unfold processPart
    rw [if_neg (by simp [hf])]
    exact ⟨leadCount_stripSlashes p, trailCount_stripSlashes p⟩

/-- Witness for C6 at concrete inputs: the segment `"a//"` (two trailing
slashes) contributes exactly one trailing slash. -/
theorem C6_witness : trailCount (processPart (String.toList "a//")) = 1 :=
  (C6_urljoin_contract (String.toList "a//") []).2.2.1 (by decide)

/-- Counterexample to C6 as stated: the segment `"a///"` ends in a double
slash, yet the processed output is `"a//"`, which contributes two trailing
slashes, not one. -/
theorem C6_counterexample :
    endsWith2 (String.toList "a///") = true ∧
    urljoinL [String.toList "a///"] = String.toList "a//" ∧
    trailCount (urljoinL [String.toList "a///"]) ≠ 1 := by decide

/-- C7 (amended): for every *non-empty* sequence of segments without
embedded slashes, splitting the URL builder's output on `/` reproduces the
original segments. -/
theorem C7_roundtrip (parts : List (List Char)) (hne : parts ≠ [])
    (h : ∀ p ∈ parts, '/' ∉ p) : splitC '/' (urljoinL parts) = parts := by
  unfold urljoinL
  have hmap : parts.map processPart = parts := by
    rw [List.map_congr_left (fun p hp => processPart_of_no_slash (h p hp))]
    exact List.map_id parts
  rw [hmap]
  exact splitC_joinParts hne h

/-- Witness for C7 at a concrete input. -/
theorem C7_witness :
    splitC '/' (urljoinL [String.toList "site", String.toList "123"]) =
      [String.toList "site", String.toList "123"] :=
  C7_roundtrip [String.toList "site", String.toList "123"] (by decide)
    (by decide)

/-- Counterexample to C7 as stated: on the empty sequence of segments the
joined output is the empty string, and splitting the empty string on `/`
yields `[""]`, not the original empty sequence. -/
theorem C7_counterexample : splitC '/' (urljoinL []) ≠ [] := by decide

/-! ### Digit rendering round-trips -/

theorem digit_ofNat_props {k : Nat} (hk : k < 10) :
    (Char.ofNat (48 + k)).isDigit = true ∧ (Char.ofNat (48 + k)).toNat = 48 + k ∧
    Char.ofNat (48 + k) ≠ '-' ∧ Char.ofNat (48 + k) ≠ ' ' ∧
    Char.ofNat (48 + k) ≠ ':' := by
  interval_cases k <;> decide

theorem digitChar_isDigit (d : Nat) : (digitChar d).isDigit = true :=
  (digit_ofNat_props (Nat.mod_lt d (by omega))).1

theorem digitChar_toNat (d : Nat) : (digitChar d).toNat = 48 + d % 10 :=
  (digit_ofNat_props (Nat.mod_lt d (by omega))).2.1

theorem digitChar_ne_dash (d : Nat) : digitChar d ≠ '-' :=
  (digit_ofNat_props (Nat.mod_lt d (by omega))).2.2.1

theorem digitChar_ne_space (d : Nat) : digitChar d ≠ ' ' :=
  (digit_ofNat_props (Nat.mod_lt d (by omega))).2.2.2.1

theorem digitChar_ne_colon (d : Nat) : digitChar d ≠ ':' :=
  (digit_ofNat_props (Nat.mod_lt d (by omega))).2.2.2.2

theorem pad2_length (n : Nat) : (pad2 n).length = 2 := rfl

theorem pad4_length (n : Nat) : (pad4 n).length = 4 := rfl

theorem pad2_allDigits (n : Nat) : allDigits (pad2 n) = true := by
  simp [allDigits, pad2, digitChar_isDigit]

theorem pad4_allDigits (n : Nat) : allDigits (pad4 n) = true := by
  simp [allDigits, pad4, digitChar_isDigit]

theorem pad2_natOf {n : Nat} (h : n < 100) : natOf (pad2 n) = n := by
  simp [natOf, pad2, digitChar_toNat]
  omega

theorem pad4_natOf {n : Nat} (h : n < 10000) : natOf (pad4 n) = n := by
  simp [natOf, pad4, digitChar_toNat]
  omega

theorem isDigit_of_mem_pad2 {c : Char} {n : Nat} (h : c ∈ pad2 n) :
    c.isDigit = true := by
  simp [pad2] at h
  rcases h with rfl | rfl <;> exact digitChar_isDigit _

theorem isDigit_of_mem_pad4 {c : Char} {n : Nat} (h : c ∈ pad4 n) :
    c.isDigit = true := by
  simp [pad4] at h
  rcases h with rfl | rfl | rfl | rfl <;> exact digitChar_isDigit _

theorem dash_not_mem_pad2 (n : Nat) : '-' ∉ pad2 n := fun h =>
  absurd (isDigit_of_mem_pad2 h) (by decide)

theorem dash_not_mem_pad4 (n : Nat) : '-' ∉ pad4 n := fun h =>
  absurd (isDigit_of_mem_pad4 h) (by decide)

theorem colon_not_mem_pad2 (n : Nat) : ':' ∉ pad2 n := fun h =>
  absurd (isDigit_of_mem_pad2 h) (by decide)

theorem yearDigits_of_ge_1000 {n : Nat} (h : 1000 ≤ n) :
    yearDigits n = pad4 n := by
  unfold yearDigits
  rw [if_neg (by omega), if_neg (by omega), if_neg (by omega)]

theorem isDigit_of_mem_yearDigits {c : Char} {n : Nat}
    (h : c ∈ yearDigits n) : c.isDigit = true := by
  unfold yearDigits at h
  split_ifs at h
  · simp at h
    rcases h with rfl
    exact digitChar_isDigit _
  · simp at h
    rcases h with rfl | rfl <;> exact digitChar_isDigit _
  · simp at h
    rcases h with rfl | rfl | rfl <;> exact digitChar_isDigit _
  · exact isDigit_of_mem_pad4 h

theorem dash_not_mem_yearDigits (n : Nat) : '-' ∉ yearDigits n := fun h =>
  absurd (isDigit_of_mem_yearDigits h) (by decide)

theorem mem_renderYmd {c : Char} {y m d : Nat} (h : c ∈ renderYmd y m d) :
    c.isDigit = true ∨ c = '-' := by
  simp [renderYmd] at h
  rcases h with h | h | h | h | h
  · exact Or.inl (isDigit_of_mem_yearDigits h)
  · exact Or.inr h
  · exact Or.inl (isDigit_of_mem_pad2 h)
  · exact Or.inr h
  · exact Or.inl (isDigit_of_mem_pad2 h)

theorem mem_renderHms {c : Char} {h mi s : Nat} (hm : c ∈ renderHms h mi s) :
    c.isDigit = true ∨ c = ':' := by
  simp [renderHms] at hm
  rcases hm with hm | hm | hm | hm | hm
  · exact Or.inl (isDigit_of_mem_pad2 hm)
  · exact Or.inr hm
  · exact Or.inl (isDigit_of_mem_pad2 hm)
  · exact Or.inr hm
  · exact Or.inl (isDigit_of_mem_pad2 hm)

theorem space_not_mem_renderYmd (y m d : Nat) : ' ' ∉ renderYmd y m d :=
  fun h => by rcases mem_renderYmd h with h2 | h2 <;> exact absurd h2 (by decide)

theorem space_not_mem_renderHms (h mi s : Nat) : ' ' ∉ renderHms h mi s :=
  fun hm => by
    rcases mem_renderHms hm with h2 | h2 <;> exact absurd h2 (by decide)

theorem splitC_renderYmd (y m d : Nat) :
    splitC '-' (renderYmd y m d) = [yearDigits y, pad2 m, pad2 d] := by
  unfold renderYmd
  rw [splitC_append (dash_not_mem_yearDigits y),
    splitC_append (dash_not_mem_pad2 m), splitC_no_sep (dash_not_mem_pad2 d)]

theorem splitC_renderHms (h mi s : Nat) :
    splitC ':' (renderHms h mi s) = [pad2 h, pad2 mi, pad2 s] := by
  unfold renderHms
  rw [splitC_append (colon_not_mem_pad2 h),
    splitC_append (colon_not_mem_pad2 mi), splitC_no_sep (colon_not_mem_pad2 s)]

theorem splitC_render_full (y m d h mi s : Nat) :
    splitC ' ' (renderYmd y m d ++ ' ' :: renderHms h mi s) =
      [renderYmd y m d, renderHms h mi s] := by
  rw [splitC_append (space_not_mem_renderYmd y m d),
    splitC_no_sep (space_not_mem_renderHms h mi s)]

theorem daysInMonth_le_31 (y m : Nat) : daysInMonth y m ≤ 31 := by
  unfold daysInMonth
  split_ifs <;> omega

theorem okY_pad4 {y : Nat} (hy1 : 1 ≤ y) (hy2 : y ≤ 9999) :
    okY (pad4 y) = true := by
  have hny : natOf (pad4 y) = y := pad4_natOf (by omega)
  simp [okY, pad4_length, pad4_allDigits, hny]
  omega

theorem ok2_pad2 {lo hi n : Nat} (h1 : lo ≤ n) (h2 : n ≤ hi) (h3 : n < 100) :
    ok2 lo hi (pad2 n) = true := by
  have hn : natOf (pad2 n) = n := pad2_natOf h3
  simp [ok2, pad2_length, pad2_allDigits, hn]
  omega

theorem strptimeOk_renderYmd {y m d : Nat} (hy0 : 1000 ≤ y) (hy2 : y ≤ 9999)
    (hm1 : 1 ≤ m) (hm2 : m ≤ 12) (hd1 : 1 ≤ d)
    (hd2 : d ≤ daysInMonth y m) :
    strptimeOk Fmt.ymd (renderYmd y m d) = true := by
  have h31 := daysInMonth_le_31 y m
  have hyd : yearDigits y = pad4 y := yearDigits_of_ge_1000 hy0
  have hdm : decide (natOf (pad2 d) ≤
      daysInMonth (natOf (pad4 y)) (natOf (pad2 m))) = true := by
    rw [pad2_natOf (show d < 100 by omega), pad4_natOf (show y < 10000 by omega),
      pad2_natOf (show m < 100 by omega)]
    exact decide_eq_true hd2
  simp only [strptimeOk, splitC_renderYmd, hyd]
  rw [okY_pad4 (by omega) hy2, ok2_pad2 hm1 hm2 (by omega),
    ok2_pad2 hd1 (show d ≤ 31 by omega) (by omega), hdm]
  rfl

theorem strptimeOk_renderFull {y m d h mi s : Nat} (hy0 : 1000 ≤ y)
    (hy2 : y ≤ 9999) (hm1 : 1 ≤ m) (hm2 : m ≤ 12) (hd1 : 1 ≤ d)
    (hd2 : d ≤ daysInMonth y m) (hh : h ≤ 23) (hmi : mi ≤ 59) (hs : s ≤ 59) :
    strptimeOk Fmt.ymdHms (renderYmd y m d ++ ' ' :: renderHms h mi s) = true := by
  have h31 := daysInMonth_le_31 y m
  have hyd : yearDigits y = pad4 y := yearDigits_of_ge_1000 hy0
  have hdm : decide (natOf (pad2 d) ≤
      daysInMonth (natOf (pad4 y)) (natOf (pad2 m))) = true := by
    rw [pad2_natOf (show d < 100 by omega), pad4_natOf (show y < 10000 by omega),
      pad2_natOf (show m < 100 by omega)]
    exact decide_eq_true hd2
  simp only [strptimeOk, splitC_render_full, splitC_renderYmd,
    splitC_renderHms, hyd]
  rw [okY_pad4 (by omega) hy2, ok2_pad2 hm1 hm2 (by omega),
    ok2_pad2 hd1 (show d ≤ 31 by omega) (by omega), hdm,
    ok2_pad2 (Nat.zero_le h) hh (by omega),
    ok2_pad2 (Nat.zero_le mi) hmi (by omega),
    ok2_pad2 (Nat.zero_le s) hs (by omega)]
  rfl

/-- Everything `strftime` produces from a valid `date` with a four-digit
year parses back under the same format. -/
theorem strptimeOk_strftimeDate (d : Date) (fmt : Fmt)
    (hy : 1000 ≤ d.year) :
    strptimeOk fmt (strftimeDate d fmt) = true := by
  cases fmt with
  | ymd =>
      exact strptimeOk_renderYmd hy d.year_le d.month_pos d.month_le
        d.day_pos d.day_le
  | ymdHms =>
      exact strptimeOk_renderFull hy d.year_le d.month_pos d.month_le
        d.day_pos d.day_le (by omega) (by omega) (by omega)

/-- Everything `strftime` produces from a valid `datetime` with a
four-digit year parses back under the same format. -/
theorem strptimeOk_strftimeDT {Tz : Type} (t : DateTime Tz) (fmt : Fmt)
    (hy : 1000 ≤ t.date.year) :
    strptimeOk fmt (strftimeDT t fmt) = true := by
  cases fmt with
  | ymd =>
      exact strptimeOk_renderYmd hy t.date.year_le
        t.date.month_pos t.date.month_le t.date.day_pos t.date.day_le
  | ymdHms =>
      exact strptimeOk_renderFull hy t.date.year_le
        t.date.month_pos t.date.month_le t.date.day_pos t.date.day_le
        t.hour_le t.minute_le t.second_le

/-! ### Claims about `_fmt_date` -/

/-- C2: applied to a structured `datetime` value, `_fmt_date` fails — with
the `ValueError` "Please supply a target timezone", before anything else
happens (the function is pure and performs no network call) — exactly when
the value carries zone information and no target zone was supplied; a
zone-naive `datetime`, and a `date` (which has no `tzinfo` attribute),
never raise and are rendered as-is with no zone conversion (the result
does not depend on `astz` or on the supplied target zone). -/
theorem C2_fmt_date_zone {Tz : Type} (duParse : List Char → Option (DateTime Tz))
    (astz : DateTime Tz → Tz → DateTime Tz) (t : DateTime Tz) (fmt : Fmt)
    (tz : Option Tz) :
    (fmt_date duParse astz (DateInput.datetime t) fmt tz =
        Except.error (FmtErr.valueError "Please supply a target timezone") ↔
      t.tzinfo.isSome = true ∧ tz = none) ∧
    (t.tzinfo = none →
      fmt_date duParse astz (DateInput.datetime t) fmt tz =
        Except.ok (strftimeDT t fmt)) ∧
    (∀ d : Date, fmt_date duParse astz (DateInput.date d) fmt tz =
      Except.ok (strftimeDate d fmt)) := by
  unfold fmt_date finishDatetime
  refine ⟨?_, ?_, fun d => rfl⟩
  · cases htz : t.tzinfo with
    | none => cases tz <;> simp [htz]
    | some z0 => cases tz <;> simp [htz]
  · intro h
    simp [h]

/-- Witness for C2: the zone-aware sample without a target zone raises the
invalid-argument `ValueError`; the zone-naive sample with a target zone
supplied is rendered as-is. -/
theorem C2_witness :
    fmt_date noParse idZone (DateInput.datetime awareDT) Fmt.ymd none =
      Except.error (FmtErr.valueError "Please supply a target timezone") ∧
    fmt_date noParse idZone (DateInput.datetime naiveDT) Fmt.ymdHms (some ()) =
      Except.ok (strftimeDT naiveDT Fmt.ymdHms) :=
  ⟨(C2_fmt_date_zone noParse idZone awareDT Fmt.ymd none).1.mpr ⟨rfl, rfl⟩,
   (C2_fmt_date_zone noParse idZone naiveDT Fmt.ymdHms (some ())).2.1 rfl⟩

/-- C8: any text input that already parses exactly under the target format
is returned unchanged by `_fmt_date`, with no zone conversion (the result
does not depend on `duParse`, `astz`, or the supplied target zone). -/
theorem C8_text_idempotent {Tz : Type}
    (duParse : List Char → Option (DateTime Tz))
    (astz : DateTime Tz → Tz → DateTime Tz) (s : List Char) (fmt : Fmt)
    (tz : Option Tz) (h : strptimeOk fmt s = true) :
    fmt_date duParse astz (DateInput.str s) fmt tz = Except.ok s := by
  simp only [fmt_date]
  rw [if_pos h]

/-- Witness for C8 at the already-formatted text `"2021-02-28"`. -/
theorem C8_witness :
    strptimeOk Fmt.ymd (String.toList "2021-02-28") = true ∧
    fmt_date noParse idZone (DateInput.str (String.toList "2021-02-28"))
        Fmt.ymd (some ()) = Except.ok (String.toList "2021-02-28") :=
  ⟨by decide, C8_text_idempotent noParse idZone (String.toList "2021-02-28")
    Fmt.ymd (some ()) (by decide)⟩

theorem finishDatetime_ok {Tz : Type} (astz : DateTime Tz → Tz → DateTime Tz)
    (fmt : Fmt) (tz : Option Tz) (t : DateTime Tz) {out : List Char}
    (hy : 1000 ≤ t.date.year)
    (hastz : ∀ t2 z, 1000 ≤ t2.date.year → 1000 ≤ (astz t2 z).date.year)
    (h : finishDatetime astz fmt tz t = Except.ok out) :
    strptimeOk fmt out = true := by
  unfold finishDatetime at h
  cases htz : t.tzinfo with
  | none =>
      rw [htz] at h
      simp only [Except.ok.injEq] at h
      subst h
      exact strptimeOk_strftimeDT t fmt hy
  | some z0 =>
      rw [htz] at h
      cases tz with
      | none => simp at h
      | some z =>
          simp only [Except.ok.injEq] at h
          subst h
          exact strptimeOk_strftimeDT (astz t z) fmt (hastz t z hy)

/-- C10 (amended): whenever `_fmt_date` returns normally with one of the
two client formats, and every structured value involved has a four-digit
year (`≥ 1000`) — the structured input itself, anything produced by the
generic text parse, and anything produced by zone conversion — the
returned string parses under that same format.  (For years below 1000,
glibc `strftime` renders `%Y` unpadded and the output does not re-parse;
see the counterexample.) -/
theorem C10_sent_dates_wellformed {Tz : Type}
    (duParse : List Char → Option (DateTime Tz))
    (astz : DateTime Tz → Tz → DateTime Tz) (inp : DateInput Tz) (fmt : Fmt)
    (tz : Option Tz) (out : List Char)
    (hdu : ∀ s t, duParse s = some t → 1000 ≤ t.date.year)
    (hastz : ∀ t z, 1000 ≤ t.date.year → 1000 ≤ (astz t z).date.year)
    (hinp : inputYearGE 1000 inp)
    (h : fmt_date duParse astz inp fmt tz = Except.ok out) :
    strptimeOk fmt out = true := by
  cases inp with
  | str s =>
      simp only [fmt_date] at h
      by_cases hp : strptimeOk fmt s = true
      · rw [if_pos hp] at h
        simp only [Except.ok.injEq] at h
        subst h
        exact hp
      · rw [if_neg hp] at h
        cases hdu2 : duParse s with
        | none => rw [hdu2] at h; simp at h
        | some t =>
            rw [hdu2] at h
            exact finishDatetime_ok astz fmt tz t (hdu s t hdu2) hastz h
  | date d =>
      simp only [fmt_date, Except.ok.injEq] at h
      subst h
      exact strptimeOk_strftimeDate d fmt hinp
  | datetime t =>
      simp only [fmt_date] at h
      exact finishDatetime_ok astz fmt tz t hinp hastz h

/-- Witness for C10: formatting the zone-naive sample (year 2021) under
`%Y-%m-%d %H:%M:%S` yields text that parses under that format; the
trivial collaborators satisfy the year hypotheses. -/
theorem C10_witness :
    strptimeOk Fmt.ymdHms (strftimeDT naiveDT Fmt.ymdHms) = true :=
  C10_sent_dates_wellformed noParse idZone (DateInput.datetime naiveDT)
    Fmt.ymdHms none (strftimeDT naiveDT Fmt.ymdHms)
    (fun s t h => Option.noConfusion h) (fun t z h => h)
    (show 1000 ≤ naiveDT.date.year by decide) rfl

/-- Counterexample to C10 as stated: `_fmt_date(date(5, 1, 2), '%Y-%m-%d')`
returns normally with `"5-01-02"` — glibc `strftime` renders the year
unpadded — and that string does not parse under `%Y-%m-%d`, which
requires four year digits. -/
theorem C10_counterexample :
    fmt_date noParse idZone (DateInput.date date5) Fmt.ymd none =
      Except.ok (String.toList "5-01-02") ∧
    strptimeOk Fmt.ymd (String.toList "5-01-02") = false :=
  ⟨rfl, by decide⟩

/-! ### `lru_cache` behaviour lemmas -/

theorem cachedCall_miss_empty {κ α ε : Type} [BEq κ] (cap : Nat)
    (hcap : 1 ≤ cap) (f : κ → Except ε α) (k : κ) (v : α)
    (hf : f k = Except.ok v) :
    cachedCall cap f (emptyCache κ α) k = (Except.ok v, ⟨[(k, v)]⟩, true) := by
  unfold cachedCall emptyCache
  simp only [List.find?_nil, hf]
  rw [if_neg (by simp; omega)]

theorem cachedCall_hit_single {κ α ε : Type} [BEq κ] [LawfulBEq κ] (cap : Nat)
    (f : κ → Except ε α) (k : κ) (v : α) :
    cachedCall cap f ⟨[(k, v)]⟩ k = (Except.ok v, ⟨[(k, v)]⟩, false) := by
  unfold cachedCall
  rw [List.find?_cons_of_pos _ (by simp)]
  simp

theorem cachedCall_miss_ne_single {κ α ε : Type} [BEq κ] [LawfulBEq κ]
    (cap : Nat) (f : κ → Except ε α) (k k2 : κ) (v : α) (hne : k2 ≠ k) :
    (cachedCall cap f ⟨[(k, v)]⟩ k2).2.2 = true := by
  unfold cachedCall
  rw [List.find?_cons_of_neg _ (by simp [Ne.symm hne]), List.find?_nil]
  cases f k2 <;> simp

theorem cachedCall_length_le {κ α ε : Type} [BEq κ] (cap : Nat)
    (f : κ → Except ε α) (c : LruCache κ α) (k : κ)
    (hc : c.entries.length ≤ cap) :
    ((cachedCall cap f c k).2.1).entries.length ≤ cap := by
  unfold cachedCall
  cases hfind : c.entries.find? (fun p => p.1 == k) with
  | some pv =>
      have hmem := List.mem_of_find?_eq_some hfind
      have hlen := List.length_eraseP_add_one hmem (List.find?_some hfind)
      simp only [List.length_cons]
      omega
  | none =>
      cases hf : f k with
      | error e => simpa using hc
      | ok v =>
          simp only []
          by_cases hlt : cap < ((k, v) :: c.entries).length
          · rw [if_pos hlt]
            simp only [List.length_dropLast, List.length_cons]
            omega
          · rw [if_neg hlt]
            simp only [List.length_cons] at hlt ⊢
            omega

theorem cachedCall_evict_full {κ α ε : Type} [BEq κ] (cap : Nat)
    (f : κ → Except ε α) (c : LruCache κ α) (k : κ) (v : α)
    (hfind : c.entries.find? (fun p => p.1 == k) = none)
    (hf : f k = Except.ok v) (hlen : c.entries.length = cap)
    (hcap : 1 ≤ cap) :
    (cachedCall cap f c k).2.1.entries = (k, v) :: c.entries.dropLast ∧
    (cachedCall cap f c k).2.2 = true := by
  unfold cachedCall
  simp only [hfind, hf]
  rw [if_pos (by simp only [List.length_cons]; omega)]
  have hne : c.entries ≠ [] := by
    intro h0
    rw [h0] at hlen
    simp at hlen
    omega
  exact ⟨List.dropLast_cons_of_ne_nil hne, trivial⟩

theorem cachedCall_error {κ α ε : Type} [BEq κ] (cap : Nat)
    (f : κ → Except ε α) (c : LruCache κ α) (k : κ) (e : ε)
    (hfind : c.entries.find? (fun p => p.1 == k) = none)
    (hf : f k = Except.error e) :
    cachedCall cap f c k = (Except.error e, c, true) := by
  unfold cachedCall
  simp only [hfind, hf]

/-- C3: each of the three wrapped operations (`get_list`, `get_details`,
`get_data_period`) caches per exact argument tuple with capacity 128 and
LRU eviction: a first call with a fresh tuple performs the underlying
network request; a second call with exactly the same tuple performs no
request and returns the cached result; a call differing in any argument
performs another request; the cache never exceeds 128 entries, and an
insertion into a full cache evicts the least-recently-used (last) entry. -/
theorem C3_lru_memoization {α : Type} (transport : Transport α) (v : α)
    (lk lk2 : ListKey) (sk sk2 : SiteKey)
    (cl : LruCache ListKey α) (cs : LruCache SiteKey α) :
    ((Solaredge.mk lk.token).get_list transport lk.size lk.start_index
        lk.search_text lk.sort_property lk.sort_order lk.status =
        Except.ok v →
      get_list_cached transport (emptyCache ListKey α) lk =
          (Except.ok v, ⟨[(lk, v)]⟩, true) ∧
        get_list_cached transport ⟨[(lk, v)]⟩ lk =
          (Except.ok v, ⟨[(lk, v)]⟩, false)) ∧
    (lk2 ≠ lk → (get_list_cached transport ⟨[(lk, v)]⟩ lk2).2.2 = true) ∧
    (cl.entries.length ≤ 128 →
      ((get_list_cached transport cl lk).2.1).entries.length ≤ 128) ∧
    (cl.entries.find? (fun p => p.1 == lk) = none →
      (Solaredge.mk lk.token).get_list transport lk.size lk.start_index
          lk.search_text lk.sort_property lk.sort_order lk.status =
          Except.ok v →
      cl.entries.length = 128 →
      (get_list_cached transport cl lk).2.1.entries =
        (lk, v) :: cl.entries.dropLast) ∧
    ((Solaredge.mk sk.token).get_details transport sk.site_id =
        Except.ok v →
      get_details_cached transport (emptyCache SiteKey α) sk =
          (Except.ok v, ⟨[(sk, v)]⟩, true) ∧
        get_details_cached transport ⟨[(sk, v)]⟩ sk =
          (Except.ok v, ⟨[(sk, v)]⟩, false)) ∧
    (sk2 ≠ sk → (get_details_cached transport ⟨[(sk, v)]⟩ sk2).2.2 = true) ∧
    (cs.entries.length ≤ 128 →
      ((get_details_cached transport cs sk).2.1).entries.length ≤ 128) ∧
    (cs.entries.find? (fun p => p.1 == sk) = none →
      (Solaredge.mk sk.token).get_details transport sk.site_id =
        Except.ok v →
      cs.entries.length = 128 →
      (get_details_cached transport cs sk).2.1.entries =
        (sk, v) :: cs.entries.dropLast) ∧
    ((Solaredge.mk sk.token).get_data_period transport sk.site_id =
        Except.ok v →
      get_data_period_cached transport (emptyCache SiteKey α) sk =
          (Except.ok v, ⟨[(sk, v)]⟩, true) ∧
        get_data_period_cached transport ⟨[(sk, v)]⟩ sk =
          (Except.ok v, ⟨[(sk, v)]⟩, false)) ∧
    (sk2 ≠ sk →
      (get_data_period_cached transport ⟨[(sk, v)]⟩ sk2).2.2 = true) ∧
    (cs.entries.length ≤ 128 →
      ((get_data_period_cached transport cs sk).2.1).entries.length ≤ 128) ∧
    (cs.entries.find? (fun p => p.1 == sk) = none →
      (Solaredge.mk sk.token).get_data_period transport sk.site_id =
        Except.ok v →
      cs.entries.length = 128 →
      (get_data_period_cached transport cs sk).2.1.entries =
        (sk, v) :: cs.entries.dropLast) := by
  refine ⟨fun hf => ⟨cachedCall_miss_empty 128 (by omega) _ lk v hf,
      cachedCall_hit_single 128 _ lk v⟩,
    fun hne => cachedCall_miss_ne_single 128 _ lk lk2 v hne,
    fun hlen => cachedCall_length_le 128 _ cl lk hlen,
    fun hfind hf hlen =>
      (cachedCall_evict_full 128 _ cl lk v hfind hf hlen (by omega)).1,
    fun hf => ⟨cachedCall_miss_empty 128 (by omega) _ sk v hf,
      cachedCall_hit_single 128 _ sk v⟩,
    fun hne => cachedCall_miss_ne_single 128 _ sk sk2 v hne,
    fun hlen => cachedCall_length_le 128 _ cs sk hlen,
    fun hfind hf hlen =>
      (cachedCall_evict_full 128 _ cs sk v hfind hf hlen (by omega)).1,
    fun hf => ⟨cachedCall_miss_empty 128 (by omega) _ sk v hf,
      cachedCall_hit_single 128 _ sk v⟩,
    fun hne => cachedCall_miss_ne_single 128 _ sk sk2 v hne,
    fun hlen => cachedCall_length_le 128 _ cs sk hlen,
    fun hfind hf hlen =>
      (cachedCall_evict_full 128 _ cs sk v hfind hf hlen (by omega)).1⟩

/-- Witness for C3: with a 200-stub, a first `get_list` call from the
empty cache performs the request; the repeat call with the identical
tuple is served from the cache (no request); a call with a different
`size` performs a request. -/
theorem C3_witness :
    get_list_cached (stub String 200 "B") (emptyCache ListKey String) lk0 =
        (Except.ok "B", ⟨[(lk0, "B")]⟩, true) ∧
      get_list_cached (stub String 200 "B") ⟨[(lk0, "B")]⟩ lk0 =
        (Except.ok "B", ⟨[(lk0, "B")]⟩, false) ∧
      (get_list_cached (stub String 200 "B") ⟨[(lk0, "B")]⟩ lk1).2.2 =
        true := by
  obtain ⟨h1, h2, -⟩ := C3_lru_memoization (stub String 200 "B") "B" lk0 lk1
    sk0 sk1 (emptyCache ListKey String) (emptyCache SiteKey String)
  obtain ⟨ha, hb⟩ := h1 rfl
  exact ⟨ha, hb, h2 (by decide)⟩

/-- C9: when the underlying operation fails (the transport reports an
HTTP error), `lru_cache` stores nothing: the error is surfaced, the cache
is unchanged, and a second call with the identical argument tuple
performs the underlying network request again. -/
theorem C9_no_error_caching {α : Type} (transport : Transport α) (e : Nat)
    (lk : ListKey) (sk : SiteKey) (cl : LruCache ListKey α)
    (cs : LruCache SiteKey α) :
    (cl.entries.find? (fun p => p.1 == lk) = none →
      (Solaredge.mk lk.token).get_list transport lk.size lk.start_index
          lk.search_text lk.sort_property lk.sort_order lk.status =
          Except.error e →
      get_list_cached transport cl lk = (Except.error e, cl, true) ∧
        (get_list_cached transport
          (get_list_cached transport cl lk).2.1 lk).2.2 = true) ∧
    (cs.entries.find? (fun p => p.1 == sk) = none →
      (Solaredge.mk sk.token).get_details transport sk.site_id =
        Except.error e →
      get_details_cached transport cs sk = (Except.error e, cs, true) ∧
        (get_details_cached transport
          (get_details_cached transport cs sk).2.1 sk).2.2 = true) ∧
    (cs.entries.find? (fun p => p.1 == sk) = none →
      (Solaredge.mk sk.token).get_data_period transport sk.site_id =
        Except.error e →
      get_data_period_cached transport cs sk = (Except.error e, cs, true) ∧
        (get_data_period_cached transport
          (get_data_period_cached transport cs sk).2.1 sk).2.2 = true) := by
  refine ⟨fun hfind hf => ?_, fun hfind hf => ?_, fun hfind hf => ?_⟩
  · have h : get_list_cached transport cl lk = (Except.error e, cl, true) :=
      cachedCall_error 128 _ cl lk e hfind hf
    exact ⟨h, by simp only [h]⟩
  · have h : get_details_cached transport cs sk = (Except.error e, cs, true) :=
      cachedCall_error 128 _ cs sk e hfind hf
    exact ⟨h, by simp only [h]⟩
  · have h : get_data_period_cached transport cs sk =
        (Except.error e, cs, true) :=
      cachedCall_error 128 _ cs sk e hfind hf
    exact ⟨h, by simp only [h]⟩

/-- Witness for C9: with a 404-stub, `get_details` fails, the cache stays
empty, and the identical repeat call performs the request again. -/
theorem C9_witness :
    get_details_cached (stub String 404 "E") (emptyCache SiteKey String) sk0 =
        (Except.error 404, emptyCache SiteKey String, true) ∧
      (get_details_cached (stub String 404 "E")
        (get_details_cached (stub String 404 "E")
          (emptyCache SiteKey String) sk0).2.1 sk0).2.2 = true :=
  (C9_no_error_caching (stub String 404 "E") 404 lk0 sk0
    (emptyCache ListKey String) (emptyCache SiteKey String)).2.1 rfl rfl

/-- C1 (amended): for every API client operation, given a stubbed
transport with a fixed status and decoded JSON body: a 2xx status returns
that body unchanged, and a client- or server-error status (4xx/5xx, e.g.
404) makes the operation fail with the HTTP error, returning no body.
(Statuses outside both ranges, such as 304, pass `raise_for_status`
unraised and the body is returned; see the counterexample.) -/
theorem C1_http_status {α : Type} (status : Nat) (body : α) (token : String)
    (site_id size start_index : Int)
    (search_text sort_property sort_order status_filter
      start_s end_s unit_s : String) (meters serials : Option String) :
    (200 ≤ status ∧ status ≤ 299 →
      (Solaredge.mk token).get_list (stub α status body) size start_index
          search_text sort_property sort_order status_filter =
          Except.ok body ∧
        (Solaredge.mk token).get_details (stub α status body) site_id =
          Except.ok body ∧
        (Solaredge.mk token).get_data_period (stub α status body) site_id =
          Except.ok body ∧
        (Solaredge.mk token).get_energy (stub α status body) site_id
          start_s end_s unit_s = Except.ok body ∧
        (Solaredge.mk token).get_time_frame_energy (stub α status body)
          site_id start_s end_s unit_s = Except.ok body ∧
        (Solaredge.mk token).get_power (stub α status body) site_id
          start_s end_s = Except.ok body ∧
        (Solaredge.mk token).get_overview (stub α status body) site_id =
          Except.ok body ∧
        (Solaredge.mk token).get_power_details (stub α status body) site_id
          start_s end_s meters = Except.ok body ∧
        (Solaredge.mk token).get_energy_details (stub α status body)
          site_id start_s end_s meters unit_s = Except.ok body ∧
        (Solaredge.mk token).get_current_power_flow (stub α status body)
          site_id = Except.ok body ∧
        (Solaredge.mk token).get_storage_data (stub α status body) site_id
          start_s end_s serials = Except.ok body ∧
        (Solaredge.mk token).get_inventory (stub α status body) site_id =
          Except.ok body) ∧
    (400 ≤ status ∧ status ≤ 599 →
      (Solaredge.mk token).get_list (stub α status body) size start_index
          search_text sort_property sort_order status_filter =
          Except.error status ∧
        (Solaredge.mk token).get_details (stub α status body) site_id =
          Except.error status ∧
        (Solaredge.mk token).get_data_period (stub α status body) site_id =
          Except.error status ∧
        (Solaredge.mk token).get_energy (stub α status body) site_id
          start_s end_s unit_s = Except.error status ∧
        (Solaredge.mk token).get_time_frame_energy (stub α status body)
          site_id start_s end_s unit_s = Except.error status ∧
        (Solaredge.mk token).get_power (stub α status body) site_id
          start_s end_s = Except.error status ∧
        (Solaredge.mk token).get_overview (stub α status body) site_id =
          Except.error status ∧
        (Solaredge.mk token).get_power_details (stub α status body) site_id
          start_s end_s meters = Except.error status ∧
        (Solaredge.mk token).get_energy_details (stub α status body)
          site_id start_s end_s meters unit_s = Except.error status ∧
        (Solaredge.mk token).get_current_power_flow (stub α status body)
          site_id = Except.error status ∧
        (Solaredge.mk token).get_storage_data (stub α status body) site_id
          start_s end_s serials = Except.error status ∧
        (Solaredge.mk token).get_inventory (stub α status body) site_id =
          Except.error status) := by
  have hok : 200 ≤ status ∧ status ≤ 299 → ∀ rq : Request,
      runRequest (stub α status body) rq = Except.ok body := by
    rintro ⟨h1, h2⟩ rq
    unfold runRequest raiseForStatusJson stub
    dsimp only
    rw [if_neg (by omega)]
  have herr : 400 ≤ status ∧ status ≤ 599 → ∀ rq : Request,
      runRequest (stub α status body) rq = Except.error status := by
    rintro ⟨h1, h2⟩ rq
    unfold runRequest raiseForStatusJson stub
    dsimp only
    rw [if_pos (by omega)]
  constructor
  · intro h
    exact ⟨hok h _, hok h _, hok h _, hok h _, hok h _, hok h _, hok h _,
      hok h _, hok h _, hok h _, hok h _, hok h _⟩
  · intro h
    exact ⟨herr h _, herr h _, herr h _, herr h _, herr h _, herr h _,
      herr h _, herr h _, herr h _, herr h _, herr h _, herr h _⟩

/-- Witness for C1 at statuses 200 and 404 on `get_overview`. -/
theorem C1_witness :
    (Solaredge.mk "t").get_overview (stub String 200 "BODY") 1 =
        Except.ok "BODY" ∧
      (Solaredge.mk "t").get_overview (stub String 404 "BODY") 1 =
        Except.error 404 :=
  ⟨((C1_http_status 200 "BODY" "t" 1 100 0 "" "" "ASC" "Active,Pending"
      "s" "e" "DAY" none none).1 (by omega)).2.2.2.2.2.2.1,
   ((C1_http_status 404 "BODY" "t" 1 100 0 "" "" "ASC" "Active,Pending"
      "s" "e" "DAY" none none).2 (by omega)).2.2.2.2.2.2.1⟩

/-- Counterexample to C1 as stated: status 304 is not a success (2xx)
status, yet `raise_for_status` does not raise for it (it raises only for
400–599), so the operation returns the JSON body instead of failing. -/
theorem C1_counterexample :
    ¬(200 ≤ 304 ∧ 304 ≤ 299) ∧
    (Solaredge.mk "t").get_overview (stub String 304 "BODY") 1 =
      Except.ok "BODY" := by
  refine ⟨by omega, ?_⟩
  rfl

/-- C4 evaluated at the failing input, the acknowledged `serials` defect:
`get_storage_data` with the truthy `serials` value `"S1"` sends
`serials=","` — `serials.join(',')` uses the supplied value as the join
separator — instead of the supplied value. -/
theorem C4_serials_divergence :
    lookupParam
        ((Solaredge.mk "T").get_storage_data_request 7 "s" "e"
          (some "S1")).params "serials" = some (PVal.s ",") ∧
      some (PVal.s ",") ≠ some (PVal.s "S1") := by decide

/-- C5 evaluated at the failing input: for the supplied serial numbers
`"S1,S2"` the outgoing `serials` parameter is `","`, not the
comma-separated join of the serial numbers. -/
theorem C5_storage_serials_join :
    lookupParam
        ((Solaredge.mk "T").get_storage_data_request 7 "s" "e"
          (some "S1,S2")).params "serials" = some (PVal.s ",") ∧
      some (PVal.s ",") ≠ some (PVal.s "S1,S2") := by decide

end solaredge
